import Mathlib

/-!
Verification of the SQL safety-validation and auto-limiting layer, the
schema-introspection pipeline, the result-table numeric coercion and the
insight/chart generation of the finance query backend (`backend/app.py`).

A Python `str` is modelled as a `List Char` (its sequence of code points).
Python's `str.lower()` is modelled as per-character ASCII lowering, which
agrees with Python on all the ASCII keywords and statements the code
manipulates.  Calls into external collaborators (the MySQL store, the
text-generation model, pandas rendering, `json.loads`) are modelled as
explicit oracle parameters, as the code imposes no structure on them.
-/

deriving instance DecidableEq for Except

namespace NsightFinance

/-- Python `str.lower()` restricted to ASCII: each character is lowered
independently (`backend/app.py` only ever compares against ASCII keywords). -/
def pyLower (s : List Char) : List Char := s.map Char.toLower

/-- Characters stripped by Python's default `str.strip()` (ASCII whitespace). -/
def isPySpace (c : Char) : Bool :=
  c == ' ' || c == '\t' || c == '\n' || c == '\r' || c == '\x0b' || c == '\x0c'

/-- Python `str.lstrip()`. -/
def pyLstrip (s : List Char) : List Char := s.dropWhile isPySpace

/-- Python `str.rstrip()`. -/
def pyRstrip (s : List Char) : List Char := (s.reverse.dropWhile isPySpace).reverse

/-- Python `str.strip()`. -/
def pyStrip (s : List Char) : List Char := pyRstrip (pyLstrip s)

/-- Python `sql.rstrip(";")`: remove every trailing semicolon. -/
def rstripSemis (s : List Char) : List Char := (s.reverse.dropWhile (· == ';')).reverse

/-- Python `s.startswith(p)` (true when `p` begins `s`). -/
def startsWithB : List Char → List Char → Bool
  | [], _ => true
  | _ :: _, [] => false
  | p :: ps, c :: cs => p == c && startsWithB ps cs

/-- Python `needle in haystack`: substring containment. -/
def containsSub (needle : List Char) : List Char → Bool
  | [] => startsWithB needle []
  | c :: cs => startsWithB needle (c :: cs) || containsSub needle cs

/-- The list `FORBIDDEN_SQL` from `backend/app.py` (the forbidden-keyword set, scanned
in this order). -/
def FORBIDDEN_SQL : List (List Char) :=
  ["insert".data, "update".data, "delete".data, "drop".data, "alter".data,
   "truncate".data, "create".data, "grant".data, "revoke".data]

/-- The list `aggregate_keywords` from `enforce_limit` in `backend/app.py`. -/
def aggregate_keywords : List (List Char) :=
  ["sum(".data, "count(".data, "avg(".data, "min(".data, "max(".data]

/-- Model of `enforce_limit(sql)` from `backend/app.py`: add `LIMIT` to queries if
needed for safety. -/
def enforce_limit (sql : List Char) : List Char :=
  let sql_l := pyLower sql
  if containsSub "limit".data sql_l then sql
  else
    let has_aggregate := aggregate_keywords.any (fun k => containsSub k sql_l)
    let has_group_by := containsSub "group by".data sql_l
    let has_from := containsSub "from".data sql_l
    if has_from && (has_group_by || !has_aggregate) then
      rstripSemis sql ++ " LIMIT 50;".data
    else sql

/-- The three rejection conditions of `GeminiAI.validate_sql` (the code raises
`ValueError`s; the spec names them `EmptyQuery`, `UnsafeQuery`, `NotAReadQuery`). -/
inductive SqlError where
  | EmptyQuery : SqlError
  | UnsafeQuery : List Char → SqlError
  | NotAReadQuery : SqlError
deriving DecidableEq, Repr

/-- The message attached to each `ValueError` raised by `validate_sql`. -/
def SqlError.message : SqlError → List Char
  | .EmptyQuery => "Empty SQL query".data
  | .UnsafeQuery kw => "Unsafe SQL operation: ".data ++ kw
  | .NotAReadQuery => "Only SELECT queries allowed".data

/-- First forbidden keyword (in `FORBIDDEN_SQL` order) occurring in the
lower-cased SQL — the `for forbidden in FORBIDDEN_SQL` loop of `validate_sql`. -/
def find_forbidden (sql_l : List Char) : Option (List Char) :=
  FORBIDDEN_SQL.find? (fun kw => containsSub kw sql_l)

/-- Model of `GeminiAI.validate_sql(sql)` from `backend/app.py`: empty check, then the
forbidden-keyword scan, then the SELECT check; returns the input unchanged when
no check fires. -/
def validate_sql (sql : List Char) : Except SqlError (List Char) :=
  if sql = [] then .error .EmptyQuery
  else
    match find_forbidden (pyLower sql) with
    | some kw => .error (.UnsafeQuery kw)
    | none =>
      if startsWithB "select".data (pyStrip (pyLower sql)) then .ok sql
      else .error .NotAReadQuery

/-! ### Helper lemmas about the string primitives and the validator -/

theorem forbidden_ne_nil : ∀ kw ∈ FORBIDDEN_SQL, kw ≠ [] := by decide

theorem containsSub_nil (kw : List Char) (h : kw ≠ []) : containsSub kw [] = false := by
  cases kw with
  | nil => exact absurd rfl h
  | cons c cs => rfl

theorem ne_nil_of_contains_forbidden (sql : List Char)
    (h : ∃ kw ∈ FORBIDDEN_SQL, containsSub kw (pyLower sql) = true) : sql ≠ [] := by
  obtain ⟨kw, hmem, hc⟩ := h
  intro hnil
  subst hnil
  simp only [pyLower, List.map_nil] at hc
  rw [containsSub_nil kw (forbidden_ne_nil kw hmem)] at hc
  exact Bool.false_ne_true hc

theorem find_forbidden_spec (s : List Char)
    (h : ∃ kw ∈ FORBIDDEN_SQL, containsSub kw s = true) :
    ∃ kw, find_forbidden s = some kw ∧ kw ∈ FORBIDDEN_SQL ∧ containsSub kw s = true := by
  have hsome : (find_forbidden s).isSome := by
    rw [find_forbidden, List.find?_isSome]
    obtain ⟨kw, hmem, hc⟩ := h
    exact ⟨kw, hmem, hc⟩
  obtain ⟨kw0, hfind⟩ := Option.isSome_iff_exists.mp hsome
  have hfind' : FORBIDDEN_SQL.find? (fun kw => containsSub kw s) = some kw0 := hfind
  have hmem : kw0 ∈ FORBIDDEN_SQL := List.mem_of_find?_eq_some hfind'
  have hp : containsSub kw0 s = true :=
    List.find?_some (p := fun kw => containsSub kw s) hfind'
  exact ⟨kw0, hfind, hmem, hp⟩

theorem find_forbidden_none (s : List Char)
    (h : ∀ kw ∈ FORBIDDEN_SQL, containsSub kw s = false) : find_forbidden s = none := by
  rw [find_forbidden, List.find?_eq_none]
  intro kw hkw
  simp [h kw hkw]

theorem validate_sql_of_find (sql kw : List Char) (hne : sql ≠ [])
    (hfind : find_forbidden (pyLower sql) = some kw) :
    validate_sql sql = .error (.UnsafeQuery kw) := by
  simp only [validate_sql]
  rw [if_neg hne, hfind]

theorem validate_sql_safe_cases (sql : List Char) (hne : sql ≠ [])
    (hnone : find_forbidden (pyLower sql) = none) :
    validate_sql sql =
      (if startsWithB "select".data (pyStrip (pyLower sql)) then Except.ok sql
       else .error .NotAReadQuery) := by
  simp only [validate_sql]
  rw [if_neg hne, hnone]

theorem containsSub_append_right (n l r : List Char) (h : containsSub n r = true) :
    containsSub n (l ++ r) = true := by
  induction l with
  | nil => simpa using h
  | cons c cs ih =>
    simp [containsSub, ih]

theorem pyLower_append (a b : List Char) : pyLower (a ++ b) = pyLower a ++ pyLower b := by
  simp [pyLower]

theorem enforce_limit_of_limit (s : List Char)
    (h : containsSub "limit".data (pyLower s) = true) : enforce_limit s = s := by
  simp only [enforce_limit]
  simp [h]

theorem enforce_limit_append_limit (s : List Char) :
    enforce_limit (s ++ " LIMIT 50;".data) = s ++ " LIMIT 50;".data := by
  apply enforce_limit_of_limit
  rw [pyLower_append]
  apply containsSub_append_right
  decide

/-! ### Claims about the validator and the limit-enforcement rule -/

/-- Claim C1: for every SQL string whose lower-cased form contains a forbidden
keyword as a substring (case-insensitive, also inside longer identifiers),
`validate_sql` raises an unsafe-query error whose message names an offending
forbidden keyword. -/
theorem validate_sql_unsafe (sql : List Char)
    (h : ∃ kw ∈ FORBIDDEN_SQL, containsSub kw (pyLower sql) = true) :
    ∃ kw ∈ FORBIDDEN_SQL, containsSub kw (pyLower sql) = true ∧
      validate_sql sql = .error (.UnsafeQuery kw) ∧
      (SqlError.UnsafeQuery kw).message = "Unsafe SQL operation: ".data ++ kw := by
  obtain ⟨kw0, hfind, hmem, hc⟩ := find_forbidden_spec (pyLower sql) h
  exact ⟨kw0, hmem, hc,
    validate_sql_of_find sql kw0 (ne_nil_of_contains_forbidden sql h) hfind, rfl⟩

/-- Witness for C1: `"SELECT col FROM table_dropped"` contains `drop` inside a
longer identifier and is rejected as unsafe. -/
theorem validate_sql_unsafe_witness :
    ∃ kw ∈ FORBIDDEN_SQL,
      containsSub kw (pyLower "SELECT col FROM table_dropped".data) = true ∧
      validate_sql "SELECT col FROM table_dropped".data = .error (.UnsafeQuery kw) ∧
      (SqlError.UnsafeQuery kw).message = "Unsafe SQL operation: ".data ++ kw :=
  validate_sql_unsafe _ (by decide)

/-- Counterexample to claim C2 as stated: `"DROP TABLE t"` does not start with
`select` after trimming and case-folding, yet `validate_sql` fails with the
unsafe-query error naming `drop`, not with the not-a-read-query error. -/
theorem validate_sql_not_read_cex :
    startsWithB "select".data (pyStrip (pyLower "DROP TABLE t".data)) = false ∧
    validate_sql "DROP TABLE t".data ≠ .error .NotAReadQuery ∧
    validate_sql "DROP TABLE t".data = .error (.UnsafeQuery "drop".data) := by decide

/-- Claim C2 (amended): for every non-empty SQL string containing no forbidden
keyword, if the trimmed, lower-cased form does not start with `select`,
`validate_sql` fails with the not-a-read-query error. -/
theorem validate_sql_not_read (sql : List Char) (hne : sql ≠ [])
    (hsafe : ∀ kw ∈ FORBIDDEN_SQL, containsSub kw (pyLower sql) = false)
    (hsel : startsWithB "select".data (pyStrip (pyLower sql)) = false) :
    validate_sql sql = .error .NotAReadQuery := by
  rw [validate_sql_safe_cases sql hne (find_forbidden_none _ hsafe)]
  simp [hsel]

/-- Witness for C2 (amended): `"show tables"` is non-empty, safe, and not a
SELECT, so it is rejected as not-a-read-query. -/
theorem validate_sql_not_read_witness :
    ("show tables".data ≠ ([] : List Char)) ∧
    validate_sql "show tables".data = .error .NotAReadQuery :=
  ⟨by decide, validate_sql_not_read _ (by decide) (by decide) (by decide)⟩

/-- Restatement of the claim's clause structure for `enforce_limit`, written
from the claim's words: unchanged when `limit` occurs; trailing semicolons
stripped and `" LIMIT 50;"` appended when `from` occurs and (`group by` occurs
or no aggregate substring occurs); otherwise unchanged. -/
def enforce_limit_claim (sql : List Char) : List Char :=
  if containsSub "limit".data (pyLower sql) then sql
  else if containsSub "from".data (pyLower sql)
         && (containsSub "group by".data (pyLower sql)
             || !(aggregate_keywords.any fun k => containsSub k (pyLower sql))) then
    rstripSemis sql ++ " LIMIT 50;".data
  else sql

/-- Claim C3: `enforce_limit` behaves exactly as the claim's case analysis:
unchanged when `limit` is present; otherwise append `" LIMIT 50;"` after
stripping trailing semicolons when `from` is present and (`group by` is present
or no aggregate substring is present); otherwise unchanged. -/
theorem enforce_limit_spec (sql : List Char) : enforce_limit sql = enforce_limit_claim sql := rfl

/-- Claim C4: `enforce_limit` is idempotent. -/
theorem enforce_limit_idem (sql : List Char) :
    enforce_limit (enforce_limit sql) = enforce_limit sql := by
  by_cases h : containsSub "limit".data (pyLower sql) = true
  · rw [enforce_limit_of_limit sql h, enforce_limit_of_limit sql h]
  · have h' : containsSub "limit".data (pyLower sql) = false := Bool.eq_false_iff.mpr h
    by_cases hc : (containsSub "from".data (pyLower sql)
        && (containsSub "group by".data (pyLower sql)
            || !(aggregate_keywords.any fun k => containsSub k (pyLower sql)))) = true
    · have e1 : enforce_limit sql = rstripSemis sql ++ " LIMIT 50;".data := by
        simp only [enforce_limit]
        simp [h', hc]
      rw [e1, enforce_limit_append_limit]
    · have hc' := Bool.eq_false_iff.mpr hc
      have e1 : enforce_limit sql = sql := by
        simp only [enforce_limit]
        simp [h', hc']
      rw [e1]
      exact e1

/-- Counterexample to claim C5 as stated: `"group by x"` contains `group by`
and no `limit`, yet `enforce_limit` returns it unchanged (no `from`); also, on
a query with a trailing semicolon the appended form strips that semicolon, so
the result is not simply the input with `" LIMIT 50;"` appended. -/
theorem enforce_limit_group_by_cex :
    containsSub "group by".data (pyLower "group by x".data) = true ∧
    containsSub "limit".data (pyLower "group by x".data) = false ∧
    enforce_limit "group by x".data = "group by x".data ∧
    enforce_limit "select a from t group by a;".data
      = "select a from t group by a LIMIT 50;".data := by decide

/-- Claim C5 (amended): for every SQL string whose lower-cased form contains
`group by` and `from` and does not contain `limit`, `enforce_limit` returns it
with trailing semicolons stripped and `" LIMIT 50;"` appended, regardless of
whether any aggregate substring is present. -/
theorem enforce_limit_group_by (sql : List Char)
    (hg : containsSub "group by".data (pyLower sql) = true)
    (hf : containsSub "from".data (pyLower sql) = true)
    (hl : containsSub "limit".data (pyLower sql) = false) :
    enforce_limit sql = rstripSemis sql ++ " LIMIT 50;".data := by
  simp only [enforce_limit]
  simp [hl, hf, hg]

/-- Witness for C5 (amended): a grouped aggregate query gains `" LIMIT 50;"`. -/
theorem enforce_limit_group_by_witness :
    enforce_limit "select a, sum(b) from t group by a".data
      = rstripSemis "select a, sum(b) from t group by a".data ++ " LIMIT 50;".data :=
  enforce_limit_group_by _ (by decide) (by decide) (by decide)

/-- Claim C10: `validate_sql` applies its checks in a fixed order: the empty
check first, then the forbidden-keyword scan (so `"DROP TABLE t"` is rejected
as unsafe, not as not-a-read-query), then the SELECT check; when no check
fires the input is returned unchanged. -/
theorem validate_sql_precedence :
    validate_sql [] = .error .EmptyQuery ∧
    validate_sql "DROP TABLE t".data = .error (.UnsafeQuery "drop".data) ∧
    (∀ sql : List Char, sql ≠ [] →
      (∃ kw ∈ FORBIDDEN_SQL, containsSub kw (pyLower sql) = true) →
      ∃ kw ∈ FORBIDDEN_SQL, validate_sql sql = .error (.UnsafeQuery kw)) ∧
    (∀ sql : List Char, sql ≠ [] →
      (∀ kw ∈ FORBIDDEN_SQL, containsSub kw (pyLower sql) = false) →
      startsWithB "select".data (pyStrip (pyLower sql)) = true →
      validate_sql sql = .ok sql) := by
  refine ⟨by decide, by decide, ?_, ?_⟩
  · intro sql hne h
    obtain ⟨kw0, hfind, hmem, hc⟩ := find_forbidden_spec (pyLower sql) h
    exact ⟨kw0, hmem, validate_sql_of_find sql kw0 hne hfind⟩
  · intro sql hne hsafe hsel
    rw [validate_sql_safe_cases sql hne (find_forbidden_none _ hsafe)]
    simp [hsel]

/-- Witness for C10: a forbidden keyword wins over the SELECT check on
`"delete from t"`, and a clean SELECT passes through unchanged. -/
theorem validate_sql_precedence_witness :
    (∃ kw ∈ FORBIDDEN_SQL, validate_sql "delete from t".data = .error (.UnsafeQuery kw)) ∧
    validate_sql " SELECT 1".data = .ok " SELECT 1".data :=
  ⟨validate_sql_precedence.2.2.1 _ (by decide) (by decide),
   validate_sql_precedence.2.2.2 _ (by decide) (by decide) (by decide)⟩

/-! ### Schema introspection (`DB.get_schema_detailed`, `DB.get_schema_text`)
and the schema gate of `process_query`.

The MySQL store is an external collaborator: the metadata query and the
per-table count/sample queries are modelled as oracle parameters.  `Fetch.err`
stands for a raised exception, `Fetch.ok` for a returned result frame. -/

/-- One row of the `information_schema.columns` metadata query. -/
structure ColumnRow where
  table_name : List Char
  column_name : List Char
  data_type : List Char
  column_type : List Char
deriving DecidableEq, Repr

/-- One entry of `schema[table]['columns']`. -/
structure ColumnInfo where
  name : List Char
  dtype : List Char
  full_type : List Char
deriving DecidableEq, Repr

/-- Entry `schema[table]`: columns, optional sample block (modelled as the JSON
rendering of its first two records, produced by the external `json` library),
and row count. -/
structure TableInfo where
  columns : List ColumnInfo
  sample_data : Option (List Char)
  row_count : Nat
deriving DecidableEq, Repr

/-- The schema dict, as an insertion-ordered association list. -/
abbrev Schema := List (List Char × TableInfo)

/-- Result of a store query: a value, or a raised exception. -/
inductive Fetch (α : Type) where
  | ok : α → Fetch α
  | err : Fetch α
deriving DecidableEq, Repr

/-- The per-table store queries issued inside `get_schema_detailed`:
`countQ t` models `SELECT COUNT(*) ... FROM t` (`ok none` = empty frame) and
`sampleQ t` models `SELECT * FROM t LIMIT 3` (`ok (some r)` = non-empty frame
whose records render to `r`). -/
structure DBOracle where
  countQ : List Char → Fetch (Option Nat)
  sampleQ : List Char → Fetch (Option (List Char))

/-- The dict built from one metadata row inside the grouping loop. -/
def colInfoOfRow (row : ColumnRow) : ColumnInfo :=
  { name := row.column_name, dtype := row.data_type, full_type := row.column_type }

/-- One iteration of the grouping loop of `get_schema_detailed`: create the
table entry on first sight, then append the column descriptor. -/
def addRow (schema : Schema) (row : ColumnRow) : Schema :=
  if schema.any (fun p => p.1 == row.table_name) then
    schema.map (fun p =>
      if p.1 == row.table_name then
        (p.1, { p.2 with columns := p.2.columns ++ [colInfoOfRow row] })
      else p)
  else
    schema ++ [(row.table_name,
      { columns := [colInfoOfRow row], sample_data := none, row_count := 0 })]

/-- The per-table `try` block of `get_schema_detailed`: fetch the row count,
then the sample rows; an exception at either step abandons the rest of the
block but keeps what was already assigned. -/
def updateStats (o : DBOracle) (table : List Char) (info : TableInfo) : TableInfo :=
  match o.countQ table with
  | .err => info
  | .ok cnt =>
    let info1 := match cnt with
      | none => info
      | some n => { info with row_count := n }
    match o.sampleQ table with
    | .err => info1
    | .ok s =>
      match s with
      | none => info1
      | some sd => { info1 with sample_data := some sd }

/-- Model of `DB.get_schema_detailed()` from `backend/app.py`: group the metadata rows
by table, then fill in per-table stats; any exception around the metadata
query yields the empty dict (the `except` branch returns `{}`). -/
def get_schema_detailed (meta : Fetch (List ColumnRow)) (o : DBOracle) : Schema :=
  match meta with
  | .err => []
  | .ok rows =>
    let schema := rows.foldl addRow []
    schema.map (fun p => (p.1, updateStats o p.1 p.2))

/-- Python `sep.join(parts)`. -/
def joinSep (sep : List Char) : List (List Char) → List Char
  | [] => []
  | [x] => x
  | x :: y :: rest => x ++ sep ++ joinSep sep (y :: rest)

/-- Decimal rendering of a row count (Python `f"{n}"` for a non-negative int). -/
def natToChars (n : Nat) : List Char :=
  if h : n < 10 then [Char.ofNat (48 + n)]
  else natToChars (n / 10) ++ [Char.ofNat (48 + n % 10)]
termination_by n
decreasing_by exact Nat.div_lt_self (by omega) (by omega)

/-- Python rendering of one column descriptor, name then parenthesised type. -/
def renderColumn (c : ColumnInfo) : List Char :=
  c.name ++ " (".data ++ c.dtype ++ ")".data

/-- The lines appended for one table by `DB.get_schema_text`. -/
def renderTable (table : List Char) (info : TableInfo) : List (List Char) :=
  [table ++ ":".data,
   "  - ".data ++ joinSep "\n  - ".data (info.columns.map renderColumn),
   "  Rows: ".data ++ natToChars info.row_count]
  ++ (match info.sample_data with
      | some sd => if sd.length < 300 then ["  Sample: ".data ++ sd] else []
      | none => [])
  ++ [[]]

/-- Model of `DB.get_schema_text()` from `backend/app.py`: the warning string on an
empty schema, otherwise the rendered per-table lines joined by newlines. -/
def get_schema_text (meta : Fetch (List ColumnRow)) (o : DBOracle) : List Char :=
  let schema := get_schema_detailed meta o
  if schema = [] then "⚠️ No tables found.".data
  else joinSep "\n".data ((schema.map (fun p => renderTable p.1 p.2)).flatten)

/-- The schema gate of `process_query` (`backend/app.py`): an empty or
warning-bearing schema text is surfaced as the 500-class error. -/
def schema_gate (schema_text : List Char) : Except (List Char) (List Char) :=
  if schema_text = [] then .error "Unable to access database schema".data
  else if containsSub "⚠️".data schema_text then
    .error "Unable to access database schema".data
  else .ok schema_text

/-- An oracle on which every per-table store query raises. -/
def failingOracle : DBOracle := ⟨fun _ => .err, fun _ => .err⟩

theorem gate_warning :
    schema_gate "⚠️ No tables found.".data =
      .error "Unable to access database schema".data := by decide

/-- Counterexample to claim C6 as stated: a failed metadata query and a store
with zero user tables produce identical schemas, identical schema texts, and
identical 500-class errors at the caller — the two outcomes are not
distinguishable, and neither is a `SchemaUnavailable`-style failure. -/
theorem schema_unavailable_cex :
    get_schema_detailed Fetch.err failingOracle
      = get_schema_detailed (Fetch.ok []) failingOracle ∧
    get_schema_detailed (Fetch.ok []) failingOracle = [] ∧
    get_schema_text Fetch.err failingOracle
      = get_schema_text (Fetch.ok []) failingOracle ∧
    schema_gate (get_schema_text Fetch.err failingOracle)
      = .error "Unable to access database schema".data ∧
    schema_gate (get_schema_text (Fetch.ok []) failingOracle)
      = .error "Unable to access database schema".data := by decide

/-- Claim C6 (amended): schema introspection never raises — when the metadata
query fails or the store has zero user tables, `get_schema_detailed` returns
the same empty schema, `get_schema_text` returns the same warning text, and
`process_query` surfaces both as the same 500-class error, so the caller
cannot distinguish the two outcomes. -/
theorem schema_unavailable_behavior (meta : Fetch (List ColumnRow)) (o : DBOracle)
    (h : meta = Fetch.err ∨ meta = Fetch.ok []) :
    get_schema_detailed meta o = [] ∧
    get_schema_text meta o = "⚠️ No tables found.".data ∧
    schema_gate (get_schema_text meta o)
      = .error "Unable to access database schema".data := by
  have hd : get_schema_detailed meta o = [] := by
    rcases h with h | h <;> subst h <;> rfl
  have ht : get_schema_text meta o = "⚠️ No tables found.".data := by
    simp [get_schema_text, hd]
  rw [ht]
  exact ⟨hd, rfl, gate_warning⟩

/-- Witness for C6 (amended), at a failed metadata query. -/
theorem schema_unavailable_behavior_witness :
    get_schema_detailed Fetch.err failingOracle = [] ∧
    get_schema_text Fetch.err failingOracle = "⚠️ No tables found.".data ∧
    schema_gate (get_schema_text Fetch.err failingOracle)
      = .error "Unable to access database schema".data :=
  schema_unavailable_behavior _ failingOracle (Or.inl rfl)

/-! ### Result tables and `force_numeric`.

A pandas DataFrame is modelled as an ordered list of named columns; a column
is either already numeric or an object (text) column; `none` cells model
`None`/`NaN`.  `pandas.to_numeric(..., errors='coerce')` is an external
collaborator; its per-value parsing is modelled for plain signed decimal
literals, which covers everything the code feeds it in the claims. -/

/-- The cell data of one DataFrame column. -/
inductive ColData where
  | numeric : List (Option Rat) → ColData
  | text : List (Option (List Char)) → ColData
deriving DecidableEq, Repr

/-- A named DataFrame column. -/
structure DFColumn where
  name : List Char
  data : ColData
deriving DecidableEq, Repr

/-- Number of cells of a column. -/
def ColData.len : ColData → Nat
  | .numeric v => v.length
  | .text v => v.length

/-- Python `len(df)` (row count; columns are rectangular). -/
def df_len : List DFColumn → Nat
  | [] => 0
  | c :: _ => c.data.len

/-- Python `df.empty`: a DataFrame with no columns or no rows. -/
def df_empty : List DFColumn → Bool
  | [] => true
  | c :: _ => c.data.len == 0

/-- Value of an ASCII digit. -/
def digVal (c : Char) : Option Nat :=
  if c.isDigit then some (c.toNat - 48) else none

/-- Parse a non-empty all-digit string. -/
def parseDigits (cs : List Char) : Option Nat :=
  if cs = [] then none
  else cs.foldl (fun acc c => acc.bind (fun a => (digVal c).map (fun d => a * 10 + d))) (some 0)

/-- Parse an unsigned decimal literal (`digits` or `digits.digits`). -/
def parseUnsigned (cs : List Char) : Option Rat :=
  match cs.splitOn '.' with
  | [ip] => (parseDigits ip).map (fun n => (n : Rat))
  | [ip, fp] =>
    match parseDigits ip, parseDigits fp with
    | some a, some b => some ((a : Rat) + (b : Rat) / ((10 : Rat) ^ fp.length))
    | _, _ => none
  | _ => none

/-- Per-value conversion of `pandas.to_numeric(..., errors='coerce')`,
modelled for plain signed decimal literals: an unparseable value coerces to
`none` (NaN). -/
def parseNum (cs : List Char) : Option Rat :=
  match cs with
  | '-' :: rest => (parseUnsigned rest).map (fun q => -q)
  | '+' :: rest => parseUnsigned rest
  | _ => parseUnsigned cs

/-- Conversion of one cell: `None`/`NaN` stays `none`, a string parses or
coerces to `none`. -/
def convertCell (c : Option (List Char)) : Option Rat := c.bind parseNum

/-- The body of the `force_numeric` loop for one column (`backend/app.py`):
an object column is probed; if not every converted value is NaN the column is
replaced by the converted one, else it is left alone. -/
def force_numeric_col (col : DFColumn) : DFColumn :=
  match col.data with
  | .numeric _ => col
  | .text cells =>
    let converted := cells.map convertCell
    if converted.all (fun c => c.isNone) then col
    else { col with data := .numeric converted }

/-- Model of `force_numeric(df)` from `backend/app.py`. -/
def force_numeric (df : List DFColumn) : List DFColumn := df.map force_numeric_col

/-- Claim C7's description of the per-column behavior, written from the
spec's words: a text column converts to numeric if and only if at least one
of its values parses (unparseable values becoming null); a column none of
whose values parses is left as text unchanged. -/
def force_numeric_claim_column (col : DFColumn) : DFColumn :=
  match col.data with
  | .numeric _ => col
  | .text cells =>
    if cells.any (fun c => (convertCell c).isSome) then
      { col with data := .numeric (cells.map convertCell) }
    else col

theorem all_none_eq_not_any_some (cells : List (Option (List Char))) :
    (cells.map convertCell).all (fun c => c.isNone)
      = !(cells.any (fun c => (convertCell c).isSome)) := by
  induction cells with
  | nil => rfl
  | cons c cs ih =>
    simp only [List.map_cons, List.all_cons, List.any_cons, ih, Bool.not_or]
    cases convertCell c <;> rfl

theorem force_numeric_col_claim (col : DFColumn) :
    force_numeric_col col = force_numeric_claim_column col := by
  obtain ⟨name, cdata⟩ := col
  cases cdata with
  | numeric v => rfl
  | text cells =>
    simp only [force_numeric_col, force_numeric_claim_column, all_none_eq_not_any_some]
    by_cases h : cells.any (fun c => (convertCell c).isSome) = true
    · simp [h]
    · simp [Bool.eq_false_iff.mpr h]

/-- Claim C7: `force_numeric` converts each object column to numeric exactly
when at least one of its values parses as a number (unparseable values in a
converted column become null), leaves a column none of whose values parses as
text unchanged, and in particular maps `["10","20","30"]` to the numeric
column `[10, 20, 30]` while leaving `["a","b","c"]` as text. -/
theorem force_numeric_spec :
    (∀ df : List DFColumn, force_numeric df = df.map force_numeric_claim_column) ∧
    force_numeric [⟨"v".data, .text [some "10".data, some "20".data, some "30".data]⟩]
      = [⟨"v".data, .numeric [some 10, some 20, some 30]⟩] ∧
    force_numeric [⟨"v".data, .text [some "a".data, some "b".data, some "c".data]⟩]
      = [⟨"v".data, .text [some "a".data, some "b".data, some "c".data]⟩] := by
  refine ⟨?_, by decide, by decide⟩
  intro df
  rw [force_numeric, funext force_numeric_col_claim]

/-! ### Insight and chart-spec generation.

The text-generation model and `json.loads` are external collaborators,
modelled as oracle parameters; the pandas statistics/preview rendering inside
the prompts is abstracted into a `render` parameter.  The second component of
each result counts the model invocations performed. -/

/-- Outcome of one model invocation: a completion, or a raised exception. -/
inductive ModelResult where
  | ok : List Char → ModelResult
  | err : List Char → ModelResult

/-- The insight prompt of `GeminiAI.generate_insights`: the fixed template
with the question, the SQL, the row count and column names of the summary;
the numeric-statistics block and the 15-row preview (pandas rendering, float
formatting) are supplied by `render`. -/
def insights_prompt (render : List DFColumn → List Char) (df : List DFColumn)
    (question sql : List Char) : List Char :=
  "You are a senior data analyst. Analyze this query result and provide actionable business insights. USER QUESTION: ".data
    ++ question
    ++ " SQL QUERY: ".data ++ sql
    ++ " DATA SUMMARY: Total Rows: ".data ++ natToChars (df_len df)
    ++ " Columns: ".data ++ joinSep ", ".data (df.map (fun c => c.name))
    ++ " DATA PREVIEW: ".data ++ render df

/-- Model of `GeminiAI.generate_insights(df, question, sql)` from `backend/app.py`:
an empty result table short-circuits to the fixed literal without calling the
model; otherwise one non-retried model call, whose failure degrades to an
error-describing string.  The second component counts model invocations. -/
def generate_insights (model : List Char → ModelResult)
    (render : List DFColumn → List Char) (df : List DFColumn)
    (question sql : List Char) : List Char × Nat :=
  if df_empty df then ("No data found for this query.".data, 0)
  else
    match model (insights_prompt render df question sql) with
    | .ok t => (pyStrip t, 1)
    | .err e => ("Analysis Error: ".data ++ e, 1)

/-- Claim C8: on an empty result table `generate_insights` returns exactly the
literal `"No data found for this query."` with zero model invocations, and it
invokes the model (exactly once) only when the table is non-empty. -/
theorem generate_insights_empty (model : List Char → ModelResult)
    (render : List DFColumn → List Char) (df : List DFColumn)
    (question sql : List Char) :
    (df_empty df = true →
      generate_insights model render df question sql
        = ("No data found for this query.".data, 0)) ∧
    (df_empty df = false →
      (generate_insights model render df question sql).2 = 1) := by
  constructor
  · intro h
    simp [generate_insights, h]
  · intro h
    simp only [generate_insights, h, Bool.false_eq_true, if_false]
    cases model (insights_prompt render df question sql) <;> rfl

/-- A model oracle that always answers. -/
def okModel : List Char → ModelResult := fun _ => .ok "fine".data

/-- A trivial rendering oracle. -/
def emptyRender : List DFColumn → List Char := fun _ => []

/-- Witness for C8: the empty table short-circuits; a one-row table invokes
the model once. -/
theorem generate_insights_empty_witness :
    generate_insights okModel emptyRender [] [] []
      = ("No data found for this query.".data, 0) ∧
    (generate_insights okModel emptyRender [⟨"v".data, .numeric [some 1]⟩] [] []).2 = 1 :=
  ⟨(generate_insights_empty okModel emptyRender [] [] []).1 rfl,
   (generate_insights_empty okModel emptyRender [⟨"v".data, .numeric [some 1]⟩] [] []).2 rfl⟩

/-- A JSON value, as returned by the external `json.loads`. -/
inductive Json where
  | null : Json
  | bool : Bool → Json
  | num : Rat → Json
  | str : List Char → Json
  | arr : List Json → Json
  | obj : List (List Char × Json) → Json

/-- Model of the fence-removing regex substitution: scan left to
right, removing `` ```json `` (preferred) or `` ``` `` at each position. -/
def stripFences : List Char → List Char
  | [] => []
  | c :: cs =>
    if startsWithB "```json".data (pyLower (c :: cs)) then stripFences (cs.drop 6)
    else if startsWithB "```".data (pyLower (c :: cs)) then stripFences (cs.drop 2)
    else c :: stripFences cs
termination_by l => l.length
decreasing_by
  all_goals simp only [List.length_drop, List.length_cons]
  all_goals omega

/-- Python repr of a list of strings, as interpolated into the prompt. -/
def renderPyStrList (xs : List (List Char)) : List Char :=
  "[".data ++ joinSep ", ".data (xs.map (fun s => "'".data ++ s ++ "'".data)) ++ "]".data

/-- The chart prompt of `GeminiAI.generate_chart_spec`: the fixed template
with the column list, row count and question; the 10-row preview (pandas
`to_string`) is supplied by `render`. -/
def chart_prompt (render : List DFColumn → List Char) (df : List DFColumn)
    (question : List Char) : List Char :=
  "Analyze this data and decide the best visualization. Columns: ".data
    ++ renderPyStrList (df.map (fun c => c.name))
    ++ " Row count: ".data ++ natToChars (df_len df)
    ++ " User question: ".data ++ question
    ++ " Data preview: ".data ++ render df

/-- The deterministic fallback of `generate_chart_spec`. -/
def fallback_chart_spec : Json :=
  .obj [("chart".data, .str "table".data), ("x".data, .null),
        ("y".data, .null), ("title".data, .str "Data Preview".data)]

/-- Model of `GeminiAI.generate_chart_spec(df, question)` from `backend/app.py`: one
non-retried model call; the completion is stripped, de-fenced, stripped and
parsed by the external `json.loads` (`parse`); any invocation or parse
failure yields the fallback.  The second component counts model invocations. -/
def generate_chart_spec (model : List Char → ModelResult)
    (parse : List Char → Option Json) (render : List DFColumn → List Char)
    (df : List DFColumn) (question : List Char) : Json × Nat :=
  match model (chart_prompt render df question) with
  | .err _ => (fallback_chart_spec, 1)
  | .ok raw =>
    match parse (pyStrip (stripFences (pyStrip raw))) with
    | none => (fallback_chart_spec, 1)
    | some spec => (spec, 1)

/-- Claim C9: whenever the model call fails or its output does not parse as
structured JSON, `generate_chart_spec` returns exactly the fallback
`chart=table, x=null, y=null, title="Data Preview"`, after exactly one model
invocation (no retry). -/
theorem generate_chart_spec_fallback (model : List Char → ModelResult)
    (parse : List Char → Option Json) (render : List DFColumn → List Char)
    (df : List DFColumn) (question : List Char) :
    (∀ e, model (chart_prompt render df question) = .err e →
      generate_chart_spec model parse render df question = (fallback_chart_spec, 1)) ∧
    (∀ raw, model (chart_prompt render df question) = .ok raw →
      parse (pyStrip (stripFences (pyStrip raw))) = none →
      generate_chart_spec model parse render df question = (fallback_chart_spec, 1)) := by
  constructor
  · intro e he
    simp [generate_chart_spec, he]
  · intro raw hr hp
    simp [generate_chart_spec, hr, hp]

/-- A model oracle that always raises. -/
def errModel : List Char → ModelResult := fun _ => .err "boom".data

/-- A parse oracle on which nothing parses (malformed model output). -/
def noParse : List Char → Option Json := fun _ => none

/-- Witness for C9: a failing model call and an unparseable completion both
yield the fallback after one invocation. -/
theorem generate_chart_spec_fallback_witness :
    generate_chart_spec errModel noParse emptyRender [] []
      = (fallback_chart_spec, 1) ∧
    generate_chart_spec okModel noParse emptyRender [] []
      = (fallback_chart_spec, 1) :=
  ⟨(generate_chart_spec_fallback errModel noParse emptyRender [] []).1 "boom".data rfl,
   (generate_chart_spec_fallback okModel noParse emptyRender [] []).2 "fine".data rfl rfl⟩

end NsightFinance
